import Mathlib

/-!
Verification development for the resume-screening RAG core
(`backend/rag_system.py`) and the metadata validator (`backend/app.py`).

The Python code is shallowly embedded: pure logic is translated into Lean
functions; the external collaborators (SentenceTransformer embedding model,
numpy vector norm, ChromaDB collections, Python `str`) are modelled as
explicit parameters/oracles, since their code is not part of this repository.
Python floats are idealised as rationals, extended with an explicit NaN value
so that the IEEE outcome of dividing zero by zero is representable.
-/

namespace ResumeRAG

/-- Model of a Python float value: either an ordinary (rational) value or
IEEE NaN, which arises in the code from `0.0 / 0.0` in the cosine-similarity
computation. -/
inductive NFloat where
  | nan : NFloat
  | val : ℚ → NFloat
deriving DecidableEq

/-- Python float comparison `a < b`: any comparison with NaN is `False`. -/
def NFloat.flt : NFloat → NFloat → Bool
  | NFloat.val a, NFloat.val b => decide (a < b)
  | _, _ => false

/-- Python float comparison `x < c` against a rational constant:
NaN compares `False`. Models `match_result['match_score'] < 30` etc. -/
def NFloat.fltQ : NFloat → ℚ → Bool
  | NFloat.nan, _ => false
  | NFloat.val q, c => decide (q < c)

/-- Multiplication of a float by a constant (`similarity * 100`);
NaN is absorbing, as in IEEE arithmetic. -/
def NFloat.mulConst : NFloat → ℚ → NFloat
  | NFloat.nan, _ => NFloat.nan
  | NFloat.val q, c => NFloat.val (q * c)

/-- `np.dot(a, b)`: sum of pointwise products. -/
def dotp (a b : List ℚ) : ℚ :=
  (List.zipWith (fun x y => x * y) a b).sum

/-- Model of a Python value as passed in metadata dictionaries
(`Dict[str, Any]`). Scalars mirror the types accepted by ChromaDB
(`str, int, float, bool, None`); `dict`, `list` and `obj` are the
non-scalar cases. `obj` stands for any other Python object, carrying
an opaque token that only identifies it to the `str` collaborator. -/
inductive PyVal where
  | str : String → PyVal
  | int : Int → PyVal
  | float : ℚ → PyVal
  | bool : Bool → PyVal
  | none : PyVal
  | dict : List (String × PyVal) → PyVal
  | list : List PyVal → PyVal
  | obj : String → PyVal

/-- `isinstance(value, (str, int, float, bool, type(None)))`. -/
def PyVal.isScalar : PyVal → Bool
  | PyVal.str _ => true
  | PyVal.int _ => true
  | PyVal.float _ => true
  | PyVal.bool _ => true
  | PyVal.none => true
  | _ => false

/-- A metadata dictionary: Python dicts preserve insertion order, so an
association list is the faithful model. -/
def Metadata := List (String × PyVal)

/-- One hit returned from a ChromaDB nearest-neighbor query, as shaped by
the orchestrator: `{"id": ..., "text": ..., "metadata": ..., "distance": ...}`. -/
structure Hit where
  id : String
  text : String
  metadata : Metadata
  distance : ℚ

/-- The deterministic external collaborators used by the orchestrator:
the embedding model (`SentenceTransformer.encode`) and the vector norm
(`np.linalg.norm`). The norm is tied to the dot product by the one property
needed: it vanishes exactly on vectors whose self-dot-product is zero. -/
structure Env where
  embed : String → List ℚ
  normv : List ℚ → ℚ
  norm_eq_zero : ∀ v, normv v = 0 ↔ dotp v v = 0

/-- The ChromaDB collaborator: each collection operation can succeed or
raise (`Except.error` models a raised exception). Queries return the
already-zipped hit list the orchestrator builds from the parallel
`ids`/`documents`/`metadatas`/`distances` arrays. -/
structure Store where
  resumeQuery : List ℚ → ℕ → Except String (List Hit)
  jdQuery : List ℚ → ℕ → Except String (List Hit)
  knowledgeQuery : List ℚ → ℕ → Except String (List Hit)
  resumeCount : Except String ℕ
  jdCount : Except String ℕ
  knowledgeCount : Except String ℕ
  resumeAdd : String → String → List ℚ → Metadata → Except String Unit
  jdAdd : String → String → List ℚ → Metadata → Except String Unit

/-- One knowledge-base document: id, text, and its category/importance
metadata. -/
structure KDoc where
  id : String
  text : String
  category : String
  importance : String
deriving DecidableEq

/-- The hardcoded `knowledge_base` list of `_initialize_knowledge_base`:
(text, category, importance) triples. -/
def knowledgeBase : List (String × String × String) :=
  [("Technical skills should be evaluated based on relevance to the job requirements and proficiency level indicated in the resume.", "skill_evaluation", "high"),
   ("Experience should be assessed considering both duration and quality of work, including achievements and responsibilities.", "experience_evaluation", "high"),
   ("Education requirements vary by role; technical positions may prioritize skills over formal education, while management roles often require specific degrees.", "education_evaluation", "medium"),
   ("Red flags include gaps in employment without explanation, inconsistent information, and lack of quantifiable achievements.", "red_flags", "high"),
   ("Cultural fit is important and can be assessed through volunteer work, interests, and communication style in the resume.", "cultural_fit", "medium"),
   ("Leadership experience is valuable for senior positions and can be demonstrated through project management, team leadership, or mentorship.", "leadership", "medium"),
   ("Certifications and professional development show commitment to continuous learning and staying current in the field.", "certifications", "medium"),
   ("Industry-specific experience is often more valuable than general experience, especially for specialized roles.", "industry_experience", "high"),
   ("Quantifiable achievements with metrics and numbers are more impressive than generic responsibilities.", "achievements", "high"),
   ("Technology stack alignment with job requirements is crucial for technical positions.", "tech_stack", "high")]

/-- The documents the seeding loop inserts: ids `knowledge_0` .. `knowledge_9`
paired with the curated texts and their metadata. -/
def seedDocs : List KDoc :=
  knowledgeBase.enum.map fun p =>
    { id := "knowledge_" ++ toString p.1
      text := p.2.1
      category := p.2.2.1
      importance := p.2.2.2 }

/-- `_initialize_knowledge_base`, acting on the knowledge collection
(modelled as its list of documents; `count()` is the list length).
Its first statement reads `self.initialized`; the attribute is modelled as
`Option Bool`, with `Option.none` meaning the attribute has not been
assigned yet, in which case the read raises `AttributeError`
(`Except.error`). When the attribute is `true`, the body runs inside a
`try` that swallows every exception, and the seeding loop appends the ten
curated documents only when `count() == 0`. -/
def initializeKnowledgeBase (initializedAttr : Option Bool) (kn : List KDoc) :
    Except Unit (List KDoc) :=
  match initializedAttr with
  | Option.none => Except.error ()
  | Option.some false => Except.ok kn
  | Option.some true => Except.ok (if kn.length = 0 then kn ++ seedDocs else kn)

/-- Success/failure of each collaborator step attempted by `__init__`:
loading the embedding model, creating the persistent client, and the three
`get_or_create_collection` calls. -/
structure InitSteps where
  loadModelOk : Bool
  clientOk : Bool
  resumesOk : Bool
  jdsOk : Bool
  knowledgeOk : Bool

/-- The attribute state `__init__` leaves behind: the `initialized` flag and
whether each collaborator handle is set (`true`) or `None` (`false`). -/
structure SystemState where
  initialized : Bool
  clientSet : Bool
  resumeColSet : Bool
  jdColSet : Bool
  knowledgeColSet : Bool
deriving DecidableEq

/-- The degraded state set by the `except` branch of `__init__`:
`initialized = False` and every handle `None`. -/
def degradedState : SystemState :=
  { initialized := false, clientSet := false, resumeColSet := false
    jdColSet := false, knowledgeColSet := false }

/-- `ResumeRAGSystem.__init__`: runs the collaborator steps in order; if all
succeed it calls `_initialize_knowledge_base` — at that point the
`initialized` attribute has never been assigned (`Option.none`), so the
call raises and the `except` branch produces the degraded state. Only if
that call returned normally would `initialized = True` be reached.
Returns the resulting attribute state and the knowledge collection
contents. -/
def ragInit (steps : InitSteps) (kn0 : List KDoc) : SystemState × List KDoc :=
  if steps.loadModelOk && steps.clientOk && steps.resumesOk
      && steps.jdsOk && steps.knowledgeOk then
    match initializeKnowledgeBase Option.none kn0 with
    | Except.ok kn =>
        ({ initialized := true, clientSet := true, resumeColSet := true
           jdColSet := true, knowledgeColSet := true }, kn)
    | Except.error _ => (degradedState, kn0)
  else (degradedState, kn0)

/-- `search_similar_resumes`: empty list when not initialized, otherwise the
store query's hits, or the empty list when the query raises (the exception
is caught, logged and converted to `[]`). -/
def searchSimilarResumes (env : Env) (store : Store) (init : Bool)
    (query : String) (nResults : ℕ) : List Hit :=
  if !init then []
  else
    match store.resumeQuery (env.embed query) nResults with
    | Except.ok hits => hits
    | Except.error _ => []

/-- `search_similar_jobs`: same shape as `search_similar_resumes`, against
the job-description collection. -/
def searchSimilarJobs (env : Env) (store : Store) (init : Bool)
    (query : String) (nResults : ℕ) : List Hit :=
  if !init then []
  else
    match store.jdQuery (env.embed query) nResults with
    | Except.ok hits => hits
    | Except.error _ => []

/-- `get_relevant_knowledge`: queries the knowledge collection and keeps
only the text of each hit (`results["documents"][0]`); empty list when not
initialized or when the query raises. -/
def getRelevantKnowledge (env : Env) (store : Store) (init : Bool)
    (query : String) (nResults : ℕ) : List String :=
  if !init then []
  else
    match store.knowledgeQuery (env.embed query) nResults with
    | Except.ok hits => hits.map Hit.text
    | Except.error _ => []

/-- The `analysis_context` sub-dictionary of `semantic_resume_match`. -/
structure AnalysisContext where
  total_resumes_in_db : ℕ
  total_jobs_in_db : ℕ
  knowledge_items : ℕ

/-- The dictionary returned by `semantic_resume_match`. -/
structure MatchResult where
  semantic_similarity : NFloat
  match_score : NFloat
  relevant_knowledge : List String
  similar_resumes : List Hit
  similar_jobs : List Hit
  analysis_context : AnalysisContext

/-- The zero-value `semantic_resume_match` result returned when the system
is not initialized or when an exception is caught. -/
def zeroMatchResult : MatchResult :=
  { semantic_similarity := NFloat.val 0
    match_score := NFloat.val 0
    relevant_knowledge := []
    similar_resumes := []
    similar_jobs := []
    analysis_context := { total_resumes_in_db := 0, total_jobs_in_db := 0
                          knowledge_items := 0 } }

/-- The cosine-similarity expression
`np.dot(r, j) / (np.linalg.norm(r) * np.linalg.norm(j))` under IEEE
semantics: when the denominator is zero the numerator is necessarily zero
too (a zero-norm vector is the zero vector, whose dot product with anything
is zero), and `0.0 / 0.0` is NaN. -/
def cosineSim (env : Env) (a b : List ℚ) : NFloat :=
  if env.normv a * env.normv b = 0 then NFloat.nan
  else NFloat.val (dotp a b / (env.normv a * env.normv b))

/-- `semantic_resume_match`: the zero shape when not initialized; otherwise
computes the embeddings and their cosine similarity, gathers retrieval
context (which never raises — each helper catches its own errors), and
reads the three collection counts while building the result dictionary.
If a `count()` call raises, the surrounding `except` returns the zero
shape, discarding the computed similarity. -/
def semanticResumeMatch (env : Env) (store : Store) (init : Bool)
    (resumeText jdText : String) : MatchResult :=
  if !init then zeroMatchResult
  else
    match store.resumeCount, store.jdCount, store.knowledgeCount with
    | Except.ok rc, Except.ok jc, Except.ok kc =>
        { semantic_similarity :=
            cosineSim env (env.embed resumeText) (env.embed jdText)
          match_score :=
            (cosineSim env (env.embed resumeText) (env.embed jdText)).mulConst 100
          relevant_knowledge :=
            getRelevantKnowledge env store init
              "resume matching job description skills experience" 3
          similar_resumes := searchSimilarResumes env store init jdText 3
          similar_jobs := searchSimilarJobs env store init resumeText 3
          analysis_context := { total_resumes_in_db := rc, total_jobs_in_db := jc
                                knowledge_items := kc } }
    | _, _, _ => zeroMatchResult

/-- The `database_context` sub-dictionary of `get_resume_insights`. -/
structure DatabaseContext where
  total_resumes : ℕ
  total_jobs : ℕ

/-- The dictionary returned by `get_resume_insights`. -/
structure Insights where
  skill_insights : List String
  experience_insights : List String
  red_flags_insights : List String
  similar_resumes : List Hit
  industry_insights : List String
  database_context : DatabaseContext

/-- The zero-value `get_resume_insights` result (not initialized, or an
exception caught). -/
def zeroInsights : Insights :=
  { skill_insights := []
    experience_insights := []
    red_flags_insights := []
    similar_resumes := []
    industry_insights := []
    database_context := { total_resumes := 0, total_jobs := 0 } }

/-- `get_resume_insights`: the four fixed knowledge lookups and the
similar-resume search (none of which raise), plus the two collection
counts; a raising `count()` triggers the `except` branch's zero shape. -/
def getResumeInsights (env : Env) (store : Store) (init : Bool)
    (resumeText : String) : Insights :=
  if !init then zeroInsights
  else
    match store.resumeCount, store.jdCount with
    | Except.ok rc, Except.ok jc =>
        { skill_insights :=
            getRelevantKnowledge env store init "technical skills evaluation" 2
          experience_insights :=
            getRelevantKnowledge env store init "experience assessment" 2
          red_flags_insights :=
            getRelevantKnowledge env store init "red flags resume" 2
          similar_resumes := searchSimilarResumes env store init resumeText 3
          industry_insights :=
            getRelevantKnowledge env store init "industry experience requirements" 1
          database_context := { total_resumes := rc, total_jobs := jc } }
    | _, _ => zeroInsights

/-- The fixed advisory strings used by `_generate_recommendations`. -/
def lowFitLine : String :=
  "Low match score - consider if this role is the right fit"

def moderateFitLine : String :=
  "Moderate match - review specific skill gaps"

def strongFitLine : String :=
  "Strong match - proceed with detailed evaluation"

def skillsLine : String :=
  "Focus on technical skill alignment with role requirements"

def experienceLine : String :=
  "Evaluate experience quality and relevance to position"

def redFlagsLine : String :=
  "Review for potential red flags or inconsistencies"

/-- `_generate_recommendations`: one score-band line (Python float
comparisons, so NaN falls through both `< 30` and `< 60` into the `else`
branch), then one line per non-empty insight list, in the fixed order
skills, experience, red flags. -/
def generateRecommendations (m : MatchResult) (ins : Insights) : List String :=
  [if m.match_score.fltQ 30 then lowFitLine
   else if m.match_score.fltQ 60 then moderateFitLine
   else strongFitLine]
  ++ (if ins.skill_insights.isEmpty then [] else [skillsLine])
  ++ (if ins.experience_insights.isEmpty then [] else [experienceLine])
  ++ (if ins.red_flags_insights.isEmpty then [] else [redFlagsLine])

/-- The `resumes` input entries of `batch_semantic_analysis`:
dictionaries with `id`, `text` and `metadata`. -/
structure ResumeInput where
  id : String
  text : String
  metadata : Metadata

/-- One entry of the list returned by `batch_semantic_analysis`. -/
structure AnalysisResult where
  resume_id : String
  resume_metadata : Metadata
  semantic_match : MatchResult
  insights : Insights
  overall_score : NFloat
  recommendations : List String

/-- The per-resume body of the `batch_semantic_analysis` loop. -/
def analyzeOne (env : Env) (store : Store) (init : Bool)
    (jdText : String) (r : ResumeInput) : AnalysisResult :=
  { resume_id := r.id
    resume_metadata := r.metadata
    semantic_match := semanticResumeMatch env store init r.text jdText
    insights := getResumeInsights env store init r.text
    overall_score := (semanticResumeMatch env store init r.text jdText).match_score
    recommendations :=
      generateRecommendations (semanticResumeMatch env store init r.text jdText)
        (getResumeInsights env store init r.text) }

/-- Stable insertion into a descending-by-score list: `x` goes in front of
the first element it is not strictly below — so an element placed earlier
in the input stays ahead of later elements with an equal score. This is
the extensional behavior of Python's stable `sort(key=..., reverse=True)`
for key types on which `<` is a strict total order. -/
def insertByScore (x : AnalysisResult) : List AnalysisResult → List AnalysisResult
  | [] => [x]
  | y :: ys =>
      if NFloat.flt x.overall_score y.overall_score then y :: insertByScore x ys
      else x :: y :: ys

/-- `results.sort(key=lambda x: x['overall_score'], reverse=True)` as a
stable descending sort. -/
def sortByScoreDesc : List AnalysisResult → List AnalysisResult
  | [] => []
  | x :: xs => insertByScore x (sortByScoreDesc xs)

/-- `batch_semantic_analysis`: analyze each resume in input order, then
sort the results by `overall_score`, descending and stable. Note this
method has no `initialized` guard of its own — in degraded mode it still
runs, composing the degraded results of its callees. -/
def batchSemanticAnalysis (env : Env) (store : Store) (init : Bool)
    (resumes : List ResumeInput) (jdText : String) : List AnalysisResult :=
  sortByScoreDesc (resumes.map (analyzeOne env store init jdText))

/-- The dictionary returned by `get_database_stats`. -/
structure DBStats where
  resumes_count : ℕ
  jobs_count : ℕ
  knowledge_count : ℕ
  total_embeddings : ℕ
  status : String
deriving DecidableEq

/-- `get_database_stats`: zero counts with status `not_initialized` when the
system is degraded; otherwise the three collection counts and their sum with
status `initialized`, or zero counts with status `error` if a `count()`
raises. -/
def getDatabaseStats (store : Store) (init : Bool) : DBStats :=
  if !init then
    { resumes_count := 0, jobs_count := 0, knowledge_count := 0
      total_embeddings := 0, status := "not_initialized" }
  else
    match store.resumeCount, store.jdCount, store.knowledgeCount with
    | Except.ok rc, Except.ok jc, Except.ok kc =>
        { resumes_count := rc, jobs_count := jc, knowledge_count := kc
          total_embeddings := rc + jc + kc, status := "initialized" }
    | _, _, _ =>
        { resumes_count := 0, jobs_count := 0, knowledge_count := 0
          total_embeddings := 0, status := "error" }

/-- What a write operation did: nothing (degraded-mode early return) or an
insert of the given record into its collection. -/
inductive WriteEffect where
  | noWrite : WriteEffect
  | wrote : String → String → List ℚ → Metadata → WriteEffect

/-- `add_resume`: silent no-op when not initialized; otherwise encodes the
text and inserts. A raising insert is logged and re-raised
(`Except.error`). -/
def addResume (env : Env) (store : Store) (init : Bool)
    (resumeId resumeText : String) (md : Metadata) : Except String WriteEffect :=
  if !init then Except.ok WriteEffect.noWrite
  else
    match store.resumeAdd resumeId resumeText (env.embed resumeText) md with
    | Except.ok _ =>
        Except.ok (WriteEffect.wrote resumeId resumeText (env.embed resumeText) md)
    | Except.error e => Except.error e

/-- `add_job_description`: same policy as `add_resume`, against the
job-description collection. -/
def addJobDescription (env : Env) (store : Store) (init : Bool)
    (jdId jdText : String) (md : Metadata) : Except String WriteEffect :=
  if !init then Except.ok WriteEffect.noWrite
  else
    match store.jdAdd jdId jdText (env.embed jdText) md with
    | Except.ok _ =>
        Except.ok (WriteEffect.wrote jdId jdText (env.embed jdText) md)
    | Except.error e => Except.error e

/-- `clear_database`: early return (no-op, no raise) when not initialized;
otherwise delete and recreate the three collections (`storeOk = false`
models a raising delete/create, which is logged and re-raised) and re-run
the knowledge seeder on the now-empty collection — at this point
`self.initialized` is an assigned attribute, so the seeder reads it
normally. Returns the resulting knowledge-collection contents. -/
def clearDatabase (storeOk : Bool) (init : Bool) (kn : List KDoc) :
    Except Unit (List KDoc) :=
  if !init then Except.ok kn
  else if storeOk then
    match initializeKnowledgeBase (Option.some init) [] with
    | Except.ok kn2 => Except.ok kn2
    | Except.error _ => Except.ok []
  else Except.error ()

/-- `validate_metadata_for_chromadb` (app.py): scalar values pass through
unchanged; `dict`, `list`, and any other value are replaced by their
string representation. `pyStr` is the Python builtin `str`, an external
collaborator. The dict is rebuilt key by key in iteration order, so keys
are preserved exactly. -/
def validateMetadataForChromadb (pyStr : PyVal → String)
    (md : List (String × PyVal)) : List (String × PyVal) :=
  md.map fun kv =>
    match kv.2 with
    | PyVal.str s => (kv.1, PyVal.str s)
    | PyVal.int n => (kv.1, PyVal.int n)
    | PyVal.float q => (kv.1, PyVal.float q)
    | PyVal.bool b => (kv.1, PyVal.bool b)
    | PyVal.none => (kv.1, PyVal.none)
    | PyVal.dict e => (kv.1, PyVal.str (pyStr (PyVal.dict e)))
    | PyVal.list l => (kv.1, PyVal.str (pyStr (PyVal.list l)))
    | PyVal.obj r => (kv.1, PyVal.str (pyStr (PyVal.obj r)))

/-! ## Helper lemmas -/

theorem dotp_cons (x : ℚ) (a : List ℚ) (y : ℚ) (b : List ℚ) :
    dotp (x :: a) (y :: b) = x * y + dotp a b := by
  simp [dotp]

theorem dotp_comm (a b : List ℚ) : dotp a b = dotp b a := by
  induction a generalizing b with
  | nil => cases b <;> rfl
  | cons x xs ih =>
      cases b with
      | nil => rfl
      | cons y ys => rw [dotp_cons, dotp_cons, ih, mul_comm]

theorem dotp_self_eq_zero (v : List ℚ) (h : ∀ x ∈ v, x = 0) : dotp v v = 0 := by
  induction v with
  | nil => rfl
  | cons x xs ih =>
      rw [dotp_cons, h x (by simp), ih (fun y hy => h y (by simp [hy]))]
      ring

theorem flt_asymm {a b : NFloat} (h : NFloat.flt a b = true) :
    NFloat.flt b a = false := by
  cases a <;> cases b <;> simp_all [NFloat.flt]
  linarith

/-- Adjacent-pairs descending order on analysis results: no element is
strictly below its successor under Python float comparison. -/
inductive SortedDesc : List AnalysisResult → Prop where
  | nil : SortedDesc []
  | single : ∀ x, SortedDesc [x]
  | cons : ∀ {x y : AnalysisResult} {l : List AnalysisResult},
      NFloat.flt x.overall_score y.overall_score = false →
      SortedDesc (y :: l) → SortedDesc (x :: y :: l)

theorem sortedDesc_insert (x : AnalysisResult) {l : List AnalysisResult}
    (h : SortedDesc l) : SortedDesc (insertByScore x l) := by
  induction h with
  | nil => exact SortedDesc.single x
  | single y =>
      by_cases hxy : NFloat.flt x.overall_score y.overall_score = true
      · rw [insertByScore, if_pos hxy]
        exact SortedDesc.cons (flt_asymm hxy) (SortedDesc.single x)
      · rw [insertByScore, if_neg hxy]
        exact SortedDesc.cons (Bool.eq_false_iff.mpr hxy) (SortedDesc.single y)
  | @cons y z l hyz hrest ih =>
      by_cases hxy : NFloat.flt x.overall_score y.overall_score = true
      · rw [insertByScore, if_pos hxy]
        by_cases hxz : NFloat.flt x.overall_score z.overall_score = true
        · have hz : insertByScore x (z :: l) = z :: insertByScore x l := by
            rw [insertByScore, if_pos hxz]
          exact hz ▸ SortedDesc.cons hyz (hz ▸ ih)
        · have hz : insertByScore x (z :: l) = x :: z :: l := by
            rw [insertByScore, if_neg hxz]
          exact hz ▸ SortedDesc.cons (flt_asymm hxy) (hz ▸ ih)
      · rw [insertByScore, if_neg hxy]
        exact SortedDesc.cons (Bool.eq_false_iff.mpr hxy) (SortedDesc.cons hyz hrest)

theorem sortedDesc_sort (l : List AnalysisResult) :
    SortedDesc (sortByScoreDesc l) := by
  induction l with
  | nil => exact SortedDesc.nil
  | cons x xs ih => exact sortedDesc_insert x ih

theorem insertByScore_perm (x : AnalysisResult) (l : List AnalysisResult) :
    List.Perm (insertByScore x l) (x :: l) := by
  induction l with
  | nil => exact List.Perm.refl [x]
  | cons y ys ih =>
      by_cases h : NFloat.flt x.overall_score y.overall_score = true
      · rw [insertByScore, if_pos h]
        exact (ih.cons y).trans (List.Perm.swap x y ys)
      · rw [insertByScore, if_neg h]

theorem sortByScoreDesc_perm (l : List AnalysisResult) :
    List.Perm (sortByScoreDesc l) l := by
  induction l with
  | nil => exact List.Perm.refl []
  | cons x xs ih =>
      exact (insertByScore_perm x (sortByScoreDesc xs)).trans (ih.cons x)

theorem filter_insertByScore (q : ℚ) (x : AnalysisResult)
    (l : List AnalysisResult) :
    (insertByScore x l).filter (fun a => decide (a.overall_score = NFloat.val q))
      = ((x :: l).filter (fun a => decide (a.overall_score = NFloat.val q))) := by
  induction l with
  | nil => rfl
  | cons y ys ih =>
      by_cases h : NFloat.flt x.overall_score y.overall_score = true
      · have hnot : ¬(x.overall_score = NFloat.val q
            ∧ y.overall_score = NFloat.val q) := by
          rintro ⟨hx, hy⟩
          rw [hx, hy] at h
          simp [NFloat.flt] at h
        rw [insertByScore, if_pos h]
        by_cases px : x.overall_score = NFloat.val q
        · have py : ¬ y.overall_score = NFloat.val q := fun py => hnot ⟨px, py⟩
          simp [List.filter_cons, px, py, ih]
        · simp [List.filter_cons, px, ih]
      · rw [insertByScore, if_neg h]

theorem filter_sortByScoreDesc (q : ℚ) (l : List AnalysisResult) :
    (sortByScoreDesc l).filter (fun a => decide (a.overall_score = NFloat.val q))
      = l.filter (fun a => decide (a.overall_score = NFloat.val q)) := by
  induction l with
  | nil => rfl
  | cons x xs ih =>
      show (insertByScore x (sortByScoreDesc xs)).filter _ = _
      rw [filter_insertByScore]
      simp [List.filter_cons, ih]

theorem insertByScore_front {x : AnalysisResult} {l : List AnalysisResult}
    (h : ∀ y ∈ l, NFloat.flt x.overall_score y.overall_score = false) :
    insertByScore x l = x :: l := by
  cases l with
  | nil => rfl
  | cons y ys =>
      rw [insertByScore, if_neg]
      simp [h y (by simp)]

theorem sortByScoreDesc_const {l : List AnalysisResult}
    (h : ∀ a ∈ l, a.overall_score = NFloat.val 0) : sortByScoreDesc l = l := by
  induction l with
  | nil => rfl
  | cons x xs ih =>
      have hxs : sortByScoreDesc xs = xs := ih (fun a ha => h a (by simp [ha]))
      show insertByScore x (sortByScoreDesc xs) = x :: xs
      rw [hxs, insertByScore_front]
      intro y hy
      rw [h x (by simp), h y (by simp [hy])]
      simp [NFloat.flt]

/-- The analysis entry `batch_semantic_analysis` produces for one resume
when the system is degraded: zero match, empty insights, and the single
low-fit recommendation line (`0.0 < 30`). -/
def degradedAnalysis (r : ResumeInput) : AnalysisResult :=
  { resume_id := r.id
    resume_metadata := r.metadata
    semantic_match := zeroMatchResult
    insights := zeroInsights
    overall_score := NFloat.val 0
    recommendations := [lowFitLine] }

theorem analyzeOne_degraded (env : Env) (store : Store) (jd : String)
    (r : ResumeInput) : analyzeOne env store false jd r = degradedAnalysis r := by
  simp [analyzeOne, degradedAnalysis, semanticResumeMatch, getResumeInsights,
        generateRecommendations, zeroMatchResult, zeroInsights, NFloat.fltQ]

/-- One run of the knowledge seeder on an initialized system (the state of
the knowledge collection afterwards; a raised `AttributeError` would leave
it unchanged, but with the attribute assigned the seeder cannot raise). -/
def seedStep (kn : List KDoc) : List KDoc :=
  match initializeKnowledgeBase (Option.some true) kn with
  | Except.ok kn2 => kn2
  | Except.error _ => kn

theorem seedDocs_length : seedDocs.length = 10 := rfl

theorem seedStep_empty : seedStep [] = seedDocs := by
  simp [seedStep, initializeKnowledgeBase]

theorem seedStep_fixed : seedStep seedDocs = seedDocs := by
  simp [seedStep, initializeKnowledgeBase, seedDocs_length]

/-- A well-formed environment whose norm collaborator is the self-dot
product (used to instantiate theorems at concrete inputs). -/
def envSqNorm (embed : String → List ℚ) : Env :=
  { embed := embed
    normv := fun v => dotp v v
    norm_eq_zero := fun _ => Iff.rfl }

/-- Environment in which the text `A` embeds to the zero vector. -/
def envZ : Env := envSqNorm (fun s => if s = "A" then [0] else [1])

/-- Environment in which every text embeds to `[1]` (nonzero norm). -/
def envW : Env := envSqNorm (fun _ => [1])

/-- A store on which every operation succeeds trivially. -/
def storeOkTrivial : Store :=
  { resumeQuery := fun _ _ => Except.ok []
    jdQuery := fun _ _ => Except.ok []
    knowledgeQuery := fun _ _ => Except.ok []
    resumeCount := Except.ok 0
    jdCount := Except.ok 0
    knowledgeCount := Except.ok 0
    resumeAdd := fun _ _ _ _ => Except.ok ()
    jdAdd := fun _ _ _ _ => Except.ok () }

/-- A store on which every operation raises. -/
def storeBad : Store :=
  { resumeQuery := fun _ _ => Except.error "down"
    jdQuery := fun _ _ => Except.error "down"
    knowledgeQuery := fun _ _ => Except.error "down"
    resumeCount := Except.error "down"
    jdCount := Except.error "down"
    knowledgeCount := Except.error "down"
    resumeAdd := fun _ _ _ _ => Except.error "down"
    jdAdd := fun _ _ _ _ => Except.error "down" }

/-! ## Claim theorems -/

/-- Claim C1. The claim states that `__init__` reaches the ready state
(`initialized = True`) whenever every collaborator step succeeds. The code
cannot: `_initialize_knowledge_base` reads `self.initialized` before
`__init__` ever assigns it, so the call raises `AttributeError` and the
`except` handler produces the degraded state — for every combination of
collaborator outcomes, including all-success, `__init__` ends degraded
with all handles `None` and the knowledge collection untouched. -/
theorem init_always_degraded (steps : InitSteps) (kn0 : List KDoc) :
    ragInit steps kn0 = (degradedState, kn0)
      ∧ (ragInit steps kn0).1.initialized = false := by
  have h : ragInit steps kn0 = (degradedState, kn0) := by
    unfold ragInit
    split
    · rfl
    · rfl
  exact ⟨h, by rw [h]; rfl⟩

/-- Claim C2. Degraded-mode totality: with `initialized = false`, every
read operation returns exactly its documented zero-value shape (empty
lists, the zero match result, the zero insights, all-zero stats with
status `not_initialized`, and the batch result listing the degraded
zero-value analysis of each resume in input order), and every write
operation returns normally without performing a store write. -/
theorem degraded_mode_totality (env : Env) (store : Store)
    (q A B jd rid rtext : String) (n : ℕ) (md : Metadata)
    (resumes : List ResumeInput) (storeOk : Bool) (kn : List KDoc) :
    searchSimilarResumes env store false q n = []
    ∧ searchSimilarJobs env store false q n = []
    ∧ getRelevantKnowledge env store false q n = []
    ∧ semanticResumeMatch env store false A B = zeroMatchResult
    ∧ getResumeInsights env store false A = zeroInsights
    ∧ getDatabaseStats store false =
        { resumes_count := 0, jobs_count := 0, knowledge_count := 0
          total_embeddings := 0, status := "not_initialized" }
    ∧ batchSemanticAnalysis env store false resumes jd
        = resumes.map degradedAnalysis
    ∧ addResume env store false rid rtext md = Except.ok WriteEffect.noWrite
    ∧ addJobDescription env store false rid rtext md
        = Except.ok WriteEffect.noWrite
    ∧ clearDatabase storeOk false kn = Except.ok kn := by
  refine ⟨rfl, rfl, rfl, rfl, rfl, rfl, ?_, rfl, rfl, rfl⟩
  have hmap : analyzeOne env store false jd = degradedAnalysis :=
    funext (analyzeOne_degraded env store jd)
  rw [batchSemanticAnalysis, hmap, sortByScoreDesc_const]
  intro a ha
  rcases List.mem_map.mp ha with ⟨r, _, rfl⟩
  rfl

/-- Claim C3 counterexample. At a concrete input whose resume text embeds
to the all-zero vector, `semantic_resume_match` does not return
`semantic_similarity = 0.0` as the claim states: the unguarded division
`0.0 / 0.0` yields NaN. -/
theorem zero_norm_similarity_not_zero :
    (semanticResumeMatch envZ storeOkTrivial true "A" "B").semantic_similarity
      = NFloat.nan
    ∧ (semanticResumeMatch envZ storeOkTrivial true "A" "B").semantic_similarity
      ≠ NFloat.val 0 := by
  have h : (semanticResumeMatch envZ storeOkTrivial true "A" "B").semantic_similarity
      = NFloat.nan := by
    simp [semanticResumeMatch, storeOkTrivial, cosineSim, envZ, envSqNorm, dotp]
  exact ⟨h, by rw [h]; exact fun hc => NFloat.noConfusion hc⟩

/-- Claim C3, amended. When either input embeds to an all-zero (zero-norm)
vector, `semantic_resume_match` does not raise — the function returns
normally (no exception path is taken when the counts succeed) — but its
`semantic_similarity` is NaN (as is `match_score`), not 0.0. -/
theorem zero_norm_yields_nan (env : Env) (store : Store) (A B : String)
    (rc jc kc : ℕ)
    (hrc : store.resumeCount = Except.ok rc)
    (hjc : store.jdCount = Except.ok jc)
    (hkc : store.knowledgeCount = Except.ok kc)
    (hz : (∀ x ∈ env.embed A, x = 0) ∨ (∀ x ∈ env.embed B, x = 0)) :
    (semanticResumeMatch env store true A B).semantic_similarity = NFloat.nan
    ∧ (semanticResumeMatch env store true A B).match_score = NFloat.nan := by
  have hsim : cosineSim env (env.embed A) (env.embed B) = NFloat.nan := by
    rcases hz with hz | hz
    · have h0 : env.normv (env.embed A) = 0 :=
        (env.norm_eq_zero _).mpr (dotp_self_eq_zero _ hz)
      rw [cosineSim, if_pos (by rw [h0, zero_mul])]
    · have h0 : env.normv (env.embed B) = 0 :=
        (env.norm_eq_zero _).mpr (dotp_self_eq_zero _ hz)
      rw [cosineSim, if_pos (by rw [h0, mul_zero])]
  simp [semanticResumeMatch, hrc, hjc, hkc, hsim, NFloat.mulConst]

/-- Claim C3 witness: the amended statement instantiated at a concrete
environment in which `A` embeds to the zero vector. -/
theorem zero_norm_yields_nan_witness :
    (∀ x ∈ envZ.embed "A", x = 0)
    ∧ (semanticResumeMatch envZ storeOkTrivial true "A" "B").match_score
      = NFloat.nan := by
  have hz : ∀ x ∈ envZ.embed "A", x = 0 := by
    simp [envZ, envSqNorm]
  exact ⟨hz, (zero_norm_yields_nan envZ storeOkTrivial "A" "B" 0 0 0
    rfl rfl rfl (Or.inl hz)).2⟩

/-- Claim C4. Idempotent seeding: on an initialized system the seeder
inserts only when `count() == 0` (a non-empty collection is returned
unchanged); seeding the empty collection yields exactly the ten curated
documents; and iterating the seed step any number of times from the empty
collection never produces more than ten entries, with exactly ten after
at least one run. -/
theorem seeding_idempotent (n : ℕ) (kn : List KDoc) :
    (kn ≠ [] → initializeKnowledgeBase (Option.some true) kn = Except.ok kn)
    ∧ initializeKnowledgeBase (Option.some true) [] = Except.ok seedDocs
    ∧ seedDocs.length = 10
    ∧ (seedStep^[n] []).length ≤ 10
    ∧ (1 ≤ n → (seedStep^[n] []).length = 10) := by
  have hiter : ∀ m : ℕ, 1 ≤ m → seedStep^[m] [] = seedDocs := by
    intro m hm
    rcases Nat.exists_eq_add_of_le hm with ⟨j, rfl⟩
    rw [Nat.add_comm, Function.iterate_add_apply, Function.iterate_one,
        seedStep_empty, Function.iterate_fixed seedStep_fixed]
  refine ⟨?_, ?_, seedDocs_length, ?_, ?_⟩
  · intro hne
    simp [initializeKnowledgeBase, List.length_eq_zero, hne]
  · simp [initializeKnowledgeBase]
  · rcases Nat.eq_zero_or_pos n with h0 | h1
    · subst h0; simp
    · rw [hiter n h1, seedDocs_length]
  · intro h1
    rw [hiter n h1, seedDocs_length]

/-- Claim C4 witness: a non-empty collection is left unchanged, and two
iterations of the seed step from empty leave exactly ten entries. -/
theorem seeding_idempotent_witness :
    initializeKnowledgeBase (Option.some true)
        [{ id := "x", text := "t", category := "c", importance := "i" }]
      = Except.ok [{ id := "x", text := "t", category := "c", importance := "i" }]
    ∧ (seedStep^[2] []).length = 10 :=
  ⟨(seeding_idempotent 2
      [{ id := "x", text := "t", category := "c", importance := "i" }]).1
        (by simp),
   (seeding_idempotent 2 []).2.2.2.2 (by norm_num)⟩

/-- Claim C5. `batch_semantic_analysis` returns the per-resume analyses
sorted by `overall_score` descending (no element is strictly below its
successor) and stably: for every score value, the subsequence of results
carrying that score equals the corresponding subsequence of the analyses
in input order; the output is a permutation of the input-order analyses. -/
theorem batch_ranking_sorted_stable (env : Env) (store : Store)
    (init : Bool) (resumes : List ResumeInput) (jd : String) :
    SortedDesc (batchSemanticAnalysis env store init resumes jd)
    ∧ (∀ q : ℚ, (batchSemanticAnalysis env store init resumes jd).filter
        (fun a => decide (a.overall_score = NFloat.val q))
        = (resumes.map (analyzeOne env store init jd)).filter
          (fun a => decide (a.overall_score = NFloat.val q)))
    ∧ List.Perm (batchSemanticAnalysis env store init resumes jd)
        (resumes.map (analyzeOne env store init jd)) :=
  ⟨sortedDesc_sort _, fun q => filter_sortByScoreDesc q _, sortByScoreDesc_perm _⟩

/-- Claim C6. `_generate_recommendations` returns the score-band line first
(`score < 30` low-fit, `30 ≤ score < 60` moderate-fit, `score ≥ 60`
strong-fit), followed by exactly one advisory line per non-empty insight
category in the fixed order skills, experience, red flags, and nothing
else. -/
theorem recommendations_structure (q : ℚ) (m : MatchResult) (ins : Insights)
    (hscore : m.match_score = NFloat.val q) :
    generateRecommendations m ins
      = (if q < 30 then lowFitLine
         else if q < 60 then moderateFitLine else strongFitLine)
        :: ((if ins.skill_insights = [] then [] else [skillsLine])
            ++ (if ins.experience_insights = [] then [] else [experienceLine])
            ++ (if ins.red_flags_insights = [] then [] else [redFlagsLine]))
    ∧ (q < 30 → (generateRecommendations m ins).head? = some lowFitLine)
    ∧ (30 ≤ q → q < 60 →
        (generateRecommendations m ins).head? = some moderateFitLine)
    ∧ (60 ≤ q → (generateRecommendations m ins).head? = some strongFitLine) := by
  have hmain : generateRecommendations m ins
      = (if q < 30 then lowFitLine
         else if q < 60 then moderateFitLine else strongFitLine)
        :: ((if ins.skill_insights = [] then [] else [skillsLine])
            ++ (if ins.experience_insights = [] then [] else [experienceLine])
            ++ (if ins.red_flags_insights = [] then [] else [redFlagsLine])) := by
    rw [generateRecommendations, hscore]
    simp [NFloat.fltQ, List.isEmpty_iff]
  refine ⟨hmain, ?_, ?_, ?_⟩
  · intro h
    rw [hmain]
    simp [if_pos h]
  · intro h30 h60
    rw [hmain]
    simp [if_neg (not_lt.mpr h30), if_pos h60]
  · intro h60
    rw [hmain]
    simp [if_neg (not_lt.mpr (by linarith : (30 : ℚ) ≤ q)),
          if_neg (not_lt.mpr h60)]

/-- Claim C6 witness: at score 45 with only the skills insight non-empty,
the recommendations are the moderate-fit line followed by the skills
line. -/
theorem recommendations_structure_witness :
    generateRecommendations
        { zeroMatchResult with match_score := NFloat.val 45 }
        { zeroInsights with skill_insights := ["k"] }
      = [moderateFitLine, skillsLine] := by
  have h := (recommendations_structure 45
    { zeroMatchResult with match_score := NFloat.val 45 }
    { zeroInsights with skill_insights := ["k"] } rfl).1
  rw [h]
  norm_num [zeroInsights]

/-- Claim C7. Write-loud / read-quiet: on an initialized system, a raising
store insert is re-raised by `add_resume`/`add_job_description`, while a
raising store read (any of the three queries, or a `count()` inside
`get_database_stats`) is converted to the documented empty/zero value
(empty list, or all-zero stats with status `error`). -/
theorem write_loud_read_quiet (env : Env) (store : Store)
    (rid text q : String) (md : Metadata) (n : ℕ) (e : String) :
    (store.resumeAdd rid text (env.embed text) md = Except.error e →
      addResume env store true rid text md = Except.error e)
    ∧ (store.jdAdd rid text (env.embed text) md = Except.error e →
      addJobDescription env store true rid text md = Except.error e)
    ∧ (store.resumeQuery (env.embed q) n = Except.error e →
      searchSimilarResumes env store true q n = [])
    ∧ (store.jdQuery (env.embed q) n = Except.error e →
      searchSimilarJobs env store true q n = [])
    ∧ (store.knowledgeQuery (env.embed q) n = Except.error e →
      getRelevantKnowledge env store true q n = [])
    ∧ (store.resumeCount = Except.error e →
      getDatabaseStats store true =
        { resumes_count := 0, jobs_count := 0, knowledge_count := 0
          total_embeddings := 0, status := "error" })
    ∧ (store.jdCount = Except.error e →
      getDatabaseStats store true =
        { resumes_count := 0, jobs_count := 0, knowledge_count := 0
          total_embeddings := 0, status := "error" })
    ∧ (store.knowledgeCount = Except.error e →
      getDatabaseStats store true =
        { resumes_count := 0, jobs_count := 0, knowledge_count := 0
          total_embeddings := 0, status := "error" }) := by
  refine ⟨?_, ?_, ?_, ?_, ?_, ?_, ?_, ?_⟩
  · intro h
    simp [addResume, h]
  · intro h
    simp [addJobDescription, h]
  · intro h
    simp [searchSimilarResumes, h]
  · intro h
    simp [searchSimilarJobs, h]
  · intro h
    simp [getRelevantKnowledge, h]
  · intro h
    simp [getDatabaseStats, h]
  · intro h
    rcases hr : store.resumeCount with e2 | rc <;> simp [getDatabaseStats, hr, h]
  · intro h
    rcases hr : store.resumeCount with e2 | rc <;>
      rcases hj : store.jdCount with e3 | jc <;>
        simp [getDatabaseStats, hr, hj, h]

/-- Claim C7 witness: against a store on which every operation raises,
`add_resume` re-raises while the reads return their empty/zero values. -/
theorem write_loud_read_quiet_witness :
    addResume envW storeBad true "r1" "text" [] = Except.error "down"
    ∧ searchSimilarResumes envW storeBad true "q" 5 = []
    ∧ getDatabaseStats storeBad true =
        { resumes_count := 0, jobs_count := 0, knowledge_count := 0
          total_embeddings := 0, status := "error" } :=
  ⟨(write_loud_read_quiet envW storeBad "r1" "text" "q" [] 5 "down").1 rfl,
   (write_loud_read_quiet envW storeBad "r1" "text" "q" [] 5 "down").2.2.1 rfl,
   (write_loud_read_quiet envW storeBad "r1" "text" "q" [] 5 "down").2.2.2.2.2.1
     rfl⟩

/-- Claim C8. With nonzero-norm embeddings, `semantic_resume_match`
computes the same `semantic_similarity` in both argument orders (the
cosine expression is commutative), and in every result — either order,
any state — `match_score` equals `semantic_similarity * 100` exactly. -/
theorem similarity_symmetry_scaling (env : Env) (store : Store) (A B : String)
    (_hA : env.normv (env.embed A) ≠ 0) (_hB : env.normv (env.embed B) ≠ 0) :
    (semanticResumeMatch env store true A B).semantic_similarity
      = (semanticResumeMatch env store true B A).semantic_similarity
    ∧ ∀ (init : Bool) (X Y : String),
        (semanticResumeMatch env store init X Y).match_score
          = ((semanticResumeMatch env store init X Y).semantic_similarity).mulConst
              100 := by
  have hcos : cosineSim env (env.embed B) (env.embed A)
      = cosineSim env (env.embed A) (env.embed B) := by
    unfold cosineSim
    rw [dotp_comm (env.embed B) (env.embed A),
        mul_comm (env.normv (env.embed B)) (env.normv (env.embed A))]
  constructor
  · rcases h1 : store.resumeCount with e1 | rc <;>
      rcases h2 : store.jdCount with e2 | jc <;>
        rcases h3 : store.knowledgeCount with e3 | kc <;>
          simp [semanticResumeMatch, h1, h2, h3, hcos]
  · intro init X Y
    cases init with
    | false =>
        simp [semanticResumeMatch, zeroMatchResult, NFloat.mulConst]
    | true =>
        rcases h1 : store.resumeCount with e1 | rc <;>
          rcases h2 : store.jdCount with e2 | jc <;>
            rcases h3 : store.knowledgeCount with e3 | kc <;>
              simp [semanticResumeMatch, h1, h2, h3, zeroMatchResult,
                    NFloat.mulConst]

/-- Claim C8 witness: in a concrete environment where every text embeds to
`[1]` (norm 1), the similarity is symmetric between two concrete texts. -/
theorem similarity_symmetry_scaling_witness :
    envW.normv (envW.embed "a") ≠ 0
    ∧ (semanticResumeMatch envW storeOkTrivial true "a" "b").semantic_similarity
      = (semanticResumeMatch envW storeOkTrivial true "b" "a").semantic_similarity := by
  have hnz : ∀ s : String, envW.normv (envW.embed s) ≠ 0 := by
    intro s
    show dotp [1] [1] ≠ 0
    norm_num [dotp]
  exact ⟨hnz "a",
    (similarity_symmetry_scaling envW storeOkTrivial "a" "b"
      (hnz "a") (hnz "b")).1⟩

/-- Claim C9. `validate_metadata_for_chromadb` is total and returns a
mapping with exactly the same keys, in which every scalar value
(`str`, `int`, `float`, `bool`, `None`) passes through unchanged and
every non-scalar value (`dict`, `list`, or any other object) is replaced
by its string representation. -/
theorem metadata_flattening_total (pyStr : PyVal → String)
    (md : List (String × PyVal)) :
    validateMetadataForChromadb pyStr md
      = md.map (fun kv =>
          (kv.1, if kv.2.isScalar then kv.2 else PyVal.str (pyStr kv.2)))
    ∧ (validateMetadataForChromadb pyStr md).map Prod.fst = md.map Prod.fst
    ∧ (validateMetadataForChromadb pyStr md).length = md.length := by
  have hmain : validateMetadataForChromadb pyStr md
      = md.map (fun kv =>
          (kv.1, if kv.2.isScalar then kv.2 else PyVal.str (pyStr kv.2))) := by
    induction md with
    | nil => rfl
    | cons hd tl ih =>
        rcases hd with ⟨k, v⟩
        cases v <;> simp_all [validateMetadataForChromadb, PyVal.isScalar]
  refine ⟨hmain, ?_, ?_⟩
  · rw [hmain, List.map_map]
    rfl
  · rw [hmain, List.length_map]

/-- Claim C10. Batch shape invariant: `batch_semantic_analysis` returns
exactly one result per input resume (a permutation of the input-order
analyses, so same length and the `resume_id`s are a permutation of the
input ids), and every entry carries `overall_score` equal to its
`semantic_match.match_score` and the input resume's metadata unchanged. -/
theorem batch_shape_invariant (env : Env) (store : Store) (init : Bool)
    (resumes : List ResumeInput) (jd : String) :
    (batchSemanticAnalysis env store init resumes jd).length = resumes.length
    ∧ List.Perm ((batchSemanticAnalysis env store init resumes jd).map
        AnalysisResult.resume_id) (resumes.map ResumeInput.id)
    ∧ ∀ a ∈ batchSemanticAnalysis env store init resumes jd,
        ∃ r ∈ resumes, a = analyzeOne env store init jd r
          ∧ a.resume_id = r.id
          ∧ a.resume_metadata = r.metadata
          ∧ a.overall_score = a.semantic_match.match_score := by
  have hperm : List.Perm (batchSemanticAnalysis env store init resumes jd)
      (resumes.map (analyzeOne env store init jd)) := sortByScoreDesc_perm _
  refine ⟨?_, ?_, ?_⟩
  · rw [hperm.length_eq, List.length_map]
  · exact (hperm.map AnalysisResult.resume_id).trans (by rw [List.map_map]; rfl)
  · intro a ha
    rcases List.mem_map.mp (hperm.mem_iff.mp ha) with ⟨r, hr, rfl⟩
    exact ⟨r, hr, rfl, rfl, rfl, rfl⟩

/-- Claim C10 witness: a singleton batch yields exactly one result, which
is the analysis of the one input resume. -/
theorem batch_shape_invariant_witness :
    (batchSemanticAnalysis envW storeOkTrivial true
        [{ id := "r1", text := "t", metadata := [] }] "j").length = 1
    ∧ ∃ r ∈ [({ id := "r1", text := "t", metadata := [] } : ResumeInput)],
        analyzeOne envW storeOkTrivial true "j"
            { id := "r1", text := "t", metadata := [] }
          = analyzeOne envW storeOkTrivial true "j" r := by
  have h := batch_shape_invariant envW storeOkTrivial true
    [{ id := "r1", text := "t", metadata := [] }] "j"
  refine ⟨h.1, ?_⟩
  have hmem : analyzeOne envW storeOkTrivial true "j"
      { id := "r1", text := "t", metadata := [] }
      ∈ batchSemanticAnalysis envW storeOkTrivial true
        [{ id := "r1", text := "t", metadata := [] }] "j" :=
    (sortByScoreDesc_perm _).mem_iff.mpr (by simp)
  rcases h.2.2 _ hmem with ⟨r, hr, heq, _⟩
  exact ⟨r, hr, heq⟩

end ResumeRAG
